import Mathlib

/-
  Shallow embedding of src/src/text_parse.rs (crate pmv): a streaming parser
  for the Prometheus text exposition format, written in the source as an
  explicit state machine (function pointers in next_fn) over a byte reader.

  Modelling conventions:
  * bytes are modelled as Char (all inputs of interest are ASCII); the
    String::from_utf8 conversions of the source are therefore the identity
    and their Err branches are unreachable in the model;
  * Rust f64 is modelled as F64: NaN, a signed infinity, or an exact
    rational. The source never performs float arithmetic; it only parses,
    stores and compares floats, so exact rationals are faithful for every
    operation the source performs. The IEEE comparison x != y of the source
    is modelled by fne, which is true whenever either side is NaN;
  * Rc RefCell MetricFamily is modelled by an arena: TP.heap is the list of
    all allocated families, a family handle is an index into it, mf_by_name
    maps names to indices and cur_mf is an index. Aliasing between cur_mf
    and map entries is therefore represented exactly;
  * reader end of input and the todo! and unwrap panics of the source are
    explicit: PErr.ioEof, and the TP.panicked flag which halts the driver;
  * each loop of the source is written with explicit fuel; every loop of
    the source either consumes an input byte per iteration or stops, so a
    fuel of input length plus two never runs out.
-/

namespace Pmv

abbrev Str := List Char

/-- Rust f64, restricted to the values the parser can produce: NaN, a signed
infinity (true means positive), or an exact rational. -/
inductive F64 where
  | nan : F64
  | inf : Bool → F64
  | num : Rat → F64
deriving DecidableEq, Repr

/-- IEEE inequality on f64 (the Rust operator x != y): true whenever either
side is NaN, otherwise value inequality. -/
def fne : F64 → F64 → Bool
  | F64.nan, _ => true
  | _, F64.nan => true
  | F64.inf s, F64.inf t => decide (s ≠ t)
  | F64.inf _, F64.num _ => true
  | F64.num _, F64.inf _ => true
  | F64.num a, F64.num b => decide (a ≠ b)

/-- The Rust cast expression float_val as u64: saturating, NaN goes to 0.
A rational is negative exactly when its numerator is (the denominator is
positive by construction). -/
def f64_as_u64 : F64 → Nat
  | F64.nan => 0
  | F64.inf true => 2 ^ 64 - 1
  | F64.inf false => 0
  | F64.num q => if q.num < 0 then 0 else min q.floor.toNat (2 ^ 64 - 1)

def digitsVal (ds : Str) : Nat := ds.foldl (fun a c => a * 10 + (c.toNat - 48)) 0

def inf_lit : Str := "inf".toList
def infinity_lit : Str := "infinity".toList
def nan_lit : Str := "nan".toList

/-- Model of s.parse::<f64>() (fn parse_float of the source): optional sign,
case insensitive inf, infinity or nan, or a decimal with optional fraction
and exponent. none models ParseFloatError. The value is the exact rational
numerator over denominator, assembled with plain integer arithmetic. -/
def parse_float (s : Str) : Option F64 :=
  let sg : Bool × Str :=
    match s with
    | '+' :: r => (true, r)
    | '-' :: r => (false, r)
    | r => (true, r)
  let pos := sg.1
  let rest := sg.2
  let low := rest.map Char.toLower
  if low = inf_lit ∨ low = infinity_lit then some (F64.inf pos)
  else if low = nan_lit then some F64.nan
  else
    let ip := rest.takeWhile Char.isDigit
    let r1 := rest.dropWhile Char.isDigit
    let fpr : Str × Str :=
      match r1 with
      | '.' :: r => (r.takeWhile Char.isDigit, r.dropWhile Char.isDigit)
      | _ => ([], r1)
    let fp := fpr.1
    let r2 := fpr.2
    if ip.length + fp.length = 0 then none
    else
      let mantNum : Nat := digitsVal ip * 10 ^ fp.length + digitsVal fp
      let mantDen : Nat := 10 ^ fp.length
      match r2 with
      | [] =>
        some (F64.num (mkRat (if pos then (mantNum : Int) else -(mantNum : Int)) mantDen))
      | e :: r3 =>
        if e = 'e' ∨ e = 'E' then
          let esr : Bool × Str :=
            match r3 with
            | '+' :: r => (true, r)
            | '-' :: r => (false, r)
            | r => (true, r)
          let ed := esr.2.takeWhile Char.isDigit
          let r5 := esr.2.dropWhile Char.isDigit
          if ed.length = 0 ∨ r5 ≠ [] then none
          else
            let ex := digitsVal ed
            let num : Nat := if esr.1 then mantNum * 10 ^ ex else mantNum
            let den : Nat := if esr.1 then mantDen else mantDen * 10 ^ ex
            some (F64.num (mkRat (if pos then (num : Int) else -(num : Int)) den))
        else none

/- Character classifier, fn is_blank_or_tab and friends, source lines 1119 to 1137. -/

def is_blank_or_tab (b : Char) : Bool := b == ' ' || b == '\t'

def is_valid_label_name_start (b : Char) : Bool :=
  (decide ('a' ≤ b) && decide (b ≤ 'z')) || (decide ('A' ≤ b) && decide (b ≤ 'Z')) || b == '_'

def is_valid_label_name_continuation (b : Char) : Bool :=
  is_valid_label_name_start b || (decide ('0' ≤ b) && decide (b ≤ '9'))

def is_valid_metric_name_start (b : Char) : Bool :=
  is_valid_label_name_start b || b == ':'

/-- In the source this function carries a leading underscore in its name
because it is never called: the metric name scanner loops on
is_valid_label_name_continuation instead (source line 426). -/
def is_valid_metric_name_continuation (b : Char) : Bool :=
  is_valid_label_name_continuation b || b == ':'

/- Name analyzer, source lines 1139 to 1173. -/

def sfx_count : Str := "_count".toList
def sfx_sum : Str := "_sum".toList
def sfx_bucket : Str := "_bucket".toList

def is_count (name : Str) : Bool := sfx_count.isSuffixOf name
def is_sum (name : Str) : Bool := sfx_sum.isSuffixOf name
def is_bucket (name : Str) : Bool := sfx_bucket.isSuffixOf name

def summary_metric_name (name : Str) : Str :=
  if is_count name then name.take (name.length - 6)
  else if is_sum name then name.take (name.length - 4)
  else if is_bucket name then name.take (name.length - 7)
  else name

def histogram_metric_name (name : Str) : Str :=
  if is_count name then name.take (name.length - 6)
  else if is_sum name then name.take (name.length - 4)
  else if is_bucket name then name.take (name.length - 7)
  else name

/- Data model: the prometheus proto messages used by the source. Only the
fields the source touches are modelled. An absent protobuf submessage is
none; mut accessors initialize it to its default. -/

structure LabelPair where
  name : Str
  value : Str
deriving DecidableEq, Repr

structure Bucket where
  upper_bound : F64
  cumulative_count : Nat
deriving DecidableEq, Repr

structure Quantile where
  quantile : F64
  value : F64
deriving DecidableEq, Repr

structure HistogramV where
  sample_count : Nat
  sample_sum : F64
  bucket : List Bucket
deriving DecidableEq, Repr

def HistogramV.new : HistogramV := ⟨0, F64.num 0, []⟩

structure SummaryV where
  sample_count : Nat
  sample_sum : F64
  quantile : List Quantile
deriving DecidableEq, Repr

def SummaryV.new : SummaryV := ⟨0, F64.num 0, []⟩

/-- proto enum MetricType; the protobuf default is the first value, COUNTER. -/
inductive MetricType where
  | COUNTER | GAUGE | SUMMARY | UNTYPED | HISTOGRAM
deriving DecidableEq, Repr

structure Metric where
  label : List LabelPair
  counter : Option F64
  gauge : Option F64
  summary : Option SummaryV
  histogram : Option HistogramV
deriving DecidableEq, Repr

def Metric.new : Metric := ⟨[], none, none, none, none⟩

structure MetricFamily where
  name : Str
  help : Str
  field_type : MetricType
  metric : List Metric
deriving DecidableEq, Repr

/-- protobuf defaults: empty strings, enum value 0 (COUNTER), no metrics. -/
def MetricFamily.new : MetricFamily := ⟨[], [], MetricType.COUNTER, []⟩

/- Errors. The source type ParseError holds only a message string; reader
errors (read_exact at end of input) and float parse errors are separate
Rust types, kept apart here as well. No variant carries a line number. -/

inductive PErr where
  | parse : Str → PErr
  | float : Str → PErr
  | ioEof : PErr
deriving DecidableEq, Repr

inductive ParserStatus where
  | OnSummaryCount | OnSummarySum | OnHistogramCount | OnHistogramSum
deriving DecidableEq, Repr

/-- The states of the machine; the source stores fn pointers in next_fn. -/
inductive PState where
  | startOfLine | startComment | readingHelp | readingType | readingMetricName
  | readingLabels | readingValue | startTimestamp | startLabelName | startLabelValue
deriving DecidableEq, Repr

/-- struct TextParser. heap is the arena of all allocated MetricFamily
records (Rc allocations); cur_mf and the values of mf_by_name are indices
into it. input is the remaining bytes of the reader. panicked records a
Rust panic (todo! or unwrap on None). -/
structure TP where
  cur_byte : Char
  cur_labels : List (Str × Str)
  heap : List MetricFamily
  mf_by_name : List (Str × Nat)
  cur_mf : Nat
  cur_token : Str
  cur_bucket : F64
  cur_quantile : F64
  parser_status : Option ParserStatus
  line_count : Int
  reading_bytes : Int
  input : Str
  cur_metric : Option Metric
  error : Option PErr
  next_fn : Option PState
  panicked : Bool
deriving Repr

def getF (p : TP) (i : Nat) : MetricFamily := p.heap.getD i MetricFamily.new

def setF (p : TP) (i : Nat) (mf : MetricFamily) : TP := { p with heap := p.heap.set i mf }

def lookupAssoc (m : List (Str × Nat)) (k : Str) : Option Nat :=
  match m with
  | [] => none
  | (k2, v) :: rest => if k2 = k then some v else lookupAssoc rest k

def insertAssoc (m : List (Str × Nat)) (k : Str) (v : Nat) : List (Str × Nat) :=
  match m with
  | [] => [(k, v)]
  | (k2, v2) :: rest => if k2 = k then (k, v) :: rest else (k2, v2) :: insertAssoc rest k v

def insertAssocS (m : List (Str × Str)) (k v : Str) : List (Str × Str) :=
  match m with
  | [] => [(k, v)]
  | (k2, v2) :: rest => if k2 = k then (k, v) :: rest else (k2, v2) :: insertAssocS rest k v

/-- fn read_byte, source lines 1062 to 1076. Note that a successful read
clears self.error, and a failed read clears next_fn. -/
def read_byte (p : TP) : TP :=
  match p.input with
  | [] => { p with error := some PErr.ioEof, next_fn := none }
  | b :: rest =>
    { p with reading_bytes := p.reading_bytes + 1, error := none, cur_byte := b, input := rest }

def got_error (p : TP) : Bool := p.error.isSome

def sbt_go : Nat → TP → TP
  | 0, p => p
  | n + 1, p =>
    let p := read_byte p
    if p.error.isSome then p
    else if is_blank_or_tab p.cur_byte then sbt_go n p
    else p

/-- fn skip_blank_tab. -/
def skip_blank_tab (p : TP) : TP := sbt_go (p.input.length + 2) p

def skip_blank_tab_if_current_blank_tab (p : TP) : TP :=
  if is_blank_or_tab p.cur_byte then skip_blank_tab p else p

def rtuws_go : Nat → TP → TP
  | 0, p => p
  | n + 1, p =>
    if p.error.isSome then p
    else if !(is_blank_or_tab p.cur_byte) && p.cur_byte != '\n' then
      rtuws_go n (read_byte { p with cur_token := p.cur_token ++ [p.cur_byte] })
    else p

/-- fn read_token_until_white_space. -/
def read_token_until_white_space (p : TP) : TP :=
  rtuws_go (p.input.length + 2) { p with cur_token := [] }

def rtamn_go : Nat → TP → TP
  | 0, p => p
  | n + 1, p =>
    let p := read_byte { p with cur_token := p.cur_token ++ [p.cur_byte] }
    if p.error.isSome then p
    else if !(is_valid_label_name_continuation p.cur_byte) then p
    else rtamn_go n p

/-- fn read_token_as_metric_name, source lines 410 to 436. The continuation
test in the loop is is_valid_label_name_continuation, exactly as in the
source (line 426); the metric name continuation predicate is unused there. -/
def read_token_as_metric_name (p : TP) : TP :=
  let p := { p with cur_token := [] }
  if !(is_valid_metric_name_start p.cur_byte) then p
  else rtamn_go (p.input.length + 2) p

def rtaln_go : Nat → TP → TP
  | 0, p => p
  | n + 1, p =>
    let p := read_byte { p with cur_token := p.cur_token ++ [p.cur_byte] }
    if p.error.isSome || !(is_valid_label_name_continuation p.cur_byte) then p
    else rtaln_go n p

/-- fn read_token_as_label_name. -/
def read_token_as_label_name (p : TP) : TP :=
  let p := { p with cur_token := [] }
  if !(is_valid_label_name_start p.cur_byte) then p
  else rtaln_go (p.input.length + 2) p

/- Error message builders, matching the format! strings of the source. -/

def float_err_msg : Str := "invalid float literal".toList
def invalid_metric_name_msg : Str := "invalid metric name".toList
def unexpected_keyword_msg : Str := "code error: unexpected keyword".toList
def reserved_label_msg : Str := "label name \x60__name__\x27 is reserved".toList
def unexpected_end_lv_msg : Str := "unexpected end of label value".toList

def invalid_label_name_msg (name : Str) : Str :=
  "invalid label name for metric ".toList ++ name

def second_help_msg (name help : Str) : Str :=
  "second HELP line for metric name ".toList ++ name ++ (", help: ".toList) ++ help

def expect_eq_msg (c : Char) : Str :=
  "expect \x27=\x27 after label name, found ".toList ++ [c]

def expect_quote_msg (c : Char) : Str :=
  "expect \x27\x22\x27 after start of label value, found ".toList ++ [c]

def invalid_escape_msg (c : Char) : Str :=
  "invalid escape sequence \x27".toList ++ Nat.toDigits 10 c.toNat ++ ("\x27".toList)

def unescaped_newline_msg (tok : Str) : Str :=
  "label value ".toList ++ tok ++ (" contains unescaped new-line".toList)

def expect_float_quantile_msg (v : Str) : Str :=
  "expect float as value for quantile lable, got ".toList ++ v

def expect_float_le_msg (v : Str) : Str :=
  "expect float as value for le lable, got ".toList ++ v

def rtalv_go : Nat → Bool → TP → TP
  | 0, _, p => p
  | n + 1, escaped, p =>
    let p := read_byte p
    if p.error.isSome then p
    else if escaped then
      if p.cur_byte == '"' || p.cur_byte == '\\' then
        rtalv_go n false { p with cur_token := p.cur_token ++ [p.cur_byte] }
      else if p.cur_byte == 'n' then
        rtalv_go n false { p with cur_token := p.cur_token ++ ['\n'] }
      else
        { p with error := some (PErr.parse (invalid_escape_msg p.cur_byte)) }
    else
      if p.cur_byte == '"' then p
      else if p.cur_byte == '\n' then
        rtalv_go n false { p with error := some (PErr.parse (unescaped_newline_msg p.cur_token)) }
      else if p.cur_byte == '\\' then rtalv_go n true p
      else rtalv_go n false { p with cur_token := p.cur_token ++ [p.cur_byte] }

/-- fn read_token_as_label_value. As in the source, the unescaped newline
error does not stop the loop; the next successful read_byte clears it. -/
def read_token_as_label_value (p : TP) : TP :=
  rtalv_go (p.input.length + 2) false { p with cur_token := [] }

def rtun_go : Nat → Bool → Bool → TP → TP
  | 0, _, _, p => p
  | n + 1, recog, escaped, p =>
    if p.error.isSome then p
    else if recog && escaped then
      if p.cur_byte == '\\' then
        rtun_go n recog escaped (read_byte { p with cur_token := p.cur_token ++ ['\\'] })
      else if p.cur_byte == 'n' then
        rtun_go n recog escaped (read_byte { p with cur_token := p.cur_token ++ ['\n'] })
      else
        rtun_go n recog escaped
          (read_byte { p with error := some (PErr.parse (invalid_escape_msg p.cur_byte)) })
    else
      if p.cur_byte == '\n' then p
      else if p.cur_byte == '\\' then rtun_go n recog true (read_byte p)
      else rtun_go n recog escaped (read_byte { p with cur_token := p.cur_token ++ [p.cur_byte] })

/-- fn read_token_until_newline. As in the source, the escaped flag is never
reset inside the escape branch, and errors set there are cleared by the
read_byte at the bottom of the loop when more input follows. -/
def read_token_until_newline (p : TP) (recognize_escape_seq : Bool) : TP :=
  rtun_go (p.input.length + 2) recognize_escape_seq false { p with cur_token := [] }

/-- fn set_or_create_cur_mf, source lines 350 to 408. The from_utf8 Err
branch is unreachable over Char input. -/
def set_or_create_cur_mf (p : TP) : TP :=
  let p := { p with parser_status := none }
  let name := p.cur_token
  if (getF p p.cur_mf).name = name then p
  else if (lookupAssoc p.mf_by_name name).isSome then p
  else
    let mf := getF p p.cur_mf
    if mf.field_type = MetricType.SUMMARY ∧ mf.name = summary_metric_name name then
      if is_count name then { p with parser_status := some ParserStatus.OnSummaryCount }
      else if is_sum name then { p with parser_status := some ParserStatus.OnSummarySum }
      else p
    else if mf.field_type = MetricType.HISTOGRAM ∧ mf.name = histogram_metric_name name then
      if is_count name then { p with parser_status := some ParserStatus.OnHistogramCount }
      else if is_sum name then { p with parser_status := some ParserStatus.OnHistogramSum }
      else p
    else
      let id := p.heap.length
      let fam := { MetricFamily.new with name := name }
      { p with heap := p.heap ++ [fam], cur_mf := id,
               mf_by_name := insertAssoc p.mf_by_name name id }

/-- self.cur_metric.as_mut().unwrap() followed by a mutation: a None
cur_metric is a Rust panic. -/
def modifyMetric (p : TP) (f : Metric → Metric) : TP :=
  match p.cur_metric with
  | some m => { p with cur_metric := some (f m) }
  | none => { p with panicked := true, next_fn := none }

/-- protobuf mut_histogram: initializes the submessage when absent. -/
def mutHistogram (m : Metric) (f : HistogramV → HistogramV) : Metric :=
  { m with histogram := some (f (m.histogram.getD HistogramV.new)) }

def mutSummary (m : Metric) (f : SummaryV → SummaryV) : Metric :=
  { m with summary := some (f (m.summary.getD SummaryV.new)) }

/-- match &self.cur_metric then push m.clone() onto the current family. -/
def pushCurMetric (p : TP) : TP :=
  match p.cur_metric with
  | none => p
  | some m =>
    let mf := getF p p.cur_mf
    setF p p.cur_mf { mf with metric := mf.metric ++ [m] }

def lbrace : Char := Char.ofNat 123
def rbrace : Char := Char.ofNat 125

/-- fn start_of_line, source lines 127 to 149. -/
def start_of_line (p : TP) : TP :=
  let p := { p with line_count := p.line_count + 1 }
  let p := skip_blank_tab p
  if p.error.isSome then p
  else if p.cur_byte == '#' then { p with next_fn := some PState.startComment }
  else if p.cur_byte == '\n' then { p with next_fn := some PState.startOfLine }
  else { p with next_fn := some PState.readingMetricName }

/-- The comment discarding loop inside fn start_comment (generic comments):
returns the state and whether the loop returned early out of the function. -/
def stn_go : Nat → TP → TP × Bool
  | 0, p => (p, false)
  | n + 1, p =>
    if p.cur_byte == '\n' then (p, false)
    else if p.error.isSome then ({ p with next_fn := none }, true)
    else stn_go n (read_byte p)

def kwHELP : Str := "HELP".toList
def kwTYPE : Str := "TYPE".toList

/-- The tail of fn start_comment after the token matched HELP or TYPE,
source lines 213 to 264. -/
def start_comment_keyword (p : TP) (on_help on_type : Bool) : TP :=
  let p := skip_blank_tab p
  if got_error p then { p with next_fn := none }
  else
  let p := read_token_as_metric_name p
  if got_error p then { p with next_fn := none }
  else if p.cur_byte == '\n' then { p with next_fn := some PState.startOfLine }
  else if !(is_blank_or_tab p.cur_byte) then { p with next_fn := none }
  else
  let p := set_or_create_cur_mf p
  let p := skip_blank_tab p
  if got_error p then { p with next_fn := none }
  else if p.cur_byte == '\n' then { p with next_fn := some PState.startOfLine }
  else if on_help then { p with next_fn := some PState.readingHelp }
  else if on_type then { p with next_fn := some PState.readingType }
  else { p with error := some (PErr.parse unexpected_keyword_msg), next_fn := none }

/-- fn start_comment, source lines 151 to 265. The todo on end of input in
the generic comment branch is a panic. -/
def start_comment (p : TP) : TP :=
  let p := skip_blank_tab p
  if got_error p then { p with next_fn := none }
  else if p.cur_byte == '\n' then { p with next_fn := some PState.startOfLine }
  else
  let p := read_token_until_white_space p
  if got_error p then { p with next_fn := none }
  else if p.cur_byte == '\n' then { p with next_fn := some PState.startOfLine }
  else if p.cur_token = kwHELP then start_comment_keyword p true false
  else if p.cur_token = kwTYPE then start_comment_keyword p false true
  else
    let pr := stn_go (p.input.length + 2) p
    if pr.2 then pr.1
    else if pr.1.next_fn = none ∧ pr.1.error.isSome then
      { pr.1 with panicked := true, next_fn := none }
    else { pr.1 with next_fn := some PState.startOfLine }

/-- fn reading_help, source lines 267 to 308. On every new help line the
source replaces cur_mf with a brand new MetricFamily, never registered in
mf_by_name, and only then checks and sets help on that fresh record. -/
def reading_help (p : TP) : TP :=
  let p := read_token_until_newline p true
  if got_error p then { p with next_fn := none }
  else
    let id := p.heap.length
    let p := { p with heap := p.heap ++ [MetricFamily.new], cur_mf := id }
    let mf := getF p p.cur_mf
    if mf.help.length > 0 then
      { p with error := some (PErr.parse (second_help_msg mf.name mf.help)), next_fn := none }
    else
      let p := setF p p.cur_mf { mf with help := p.cur_token }
      { p with next_fn := some PState.startOfLine }

def tySummary : Str := "summary".toList
def tyCounter : Str := "counter".toList
def tyGauge : Str := "gauge".toList
def tyHistogram : Str := "histogram".toList

def set_cur_mf_type (p : TP) (t : MetricType) : TP :=
  let mf := getF p p.cur_mf
  setF p p.cur_mf { mf with field_type := t }

/-- fn reading_type, source lines 310 to 348: an unknown type token hits
todo! (the UNTYPED assignment is commented out in the source), a panic. -/
def reading_type (p : TP) : TP :=
  let p := read_token_until_newline p false
  if got_error p then { p with next_fn := none }
  else if p.cur_token = tySummary then
    { set_cur_mf_type p MetricType.SUMMARY with next_fn := some PState.startOfLine }
  else if p.cur_token = tyCounter then
    { set_cur_mf_type p MetricType.COUNTER with next_fn := some PState.startOfLine }
  else if p.cur_token = tyGauge then
    { set_cur_mf_type p MetricType.GAUGE with next_fn := some PState.startOfLine }
  else if p.cur_token = tyHistogram then
    { set_cur_mf_type p MetricType.HISTOGRAM with next_fn := some PState.startOfLine }
  else { p with panicked := true, next_fn := none }

/-- fn reading_metric_name, source lines 438 to 467. -/
def reading_metric_name (p : TP) : TP :=
  let p := read_token_as_metric_name p
  if got_error p then { p with next_fn := none }
  else if p.cur_token.length = 0 then
    { p with error := some (PErr.parse invalid_metric_name_msg), next_fn := none }
  else
    let p := set_or_create_cur_mf p
    let p := { p with cur_metric := some Metric.new }
    let p := skip_blank_tab_if_current_blank_tab p
    if got_error p then { p with next_fn := none }
    else { p with next_fn := some PState.readingLabels }

def nameLabel : Str := "__name__".toList

/-- fn reading_labels, source lines 469 to 499. -/
def reading_labels (p : TP) : TP :=
  let ft := (getF p p.cur_mf).field_type
  let p :=
    if ft = MetricType.HISTOGRAM ∨ ft = MetricType.SUMMARY then
      { p with cur_labels := [(nameLabel, (getF p p.cur_mf).name)],
               cur_quantile := F64.nan, cur_bucket := F64.nan }
    else p
  if p.cur_byte != lbrace then { p with next_fn := some PState.readingValue }
  else { p with next_fn := some PState.startLabelName }

def lblLe : Str := "le".toList
def lblQuantile : Str := "quantile".toList

/-- fn start_label_name, source lines 704 to 790. On a reserved label name
the source sets self.error but does not clear next_fn, so the machine keeps
running; it also still pushes the label pair. -/
def start_label_name (p : TP) : TP :=
  let p := skip_blank_tab p
  if got_error p then { p with next_fn := none }
  else if p.cur_byte == rbrace then
    let p := skip_blank_tab p
    if got_error p then { p with next_fn := none }
    else { p with next_fn := some PState.readingValue }
  else
  let p := read_token_as_label_name p
  if got_error p then { p with next_fn := none }
  else if p.cur_token.length = 0 then
    { p with error := some (PErr.parse (invalid_label_name_msg (getF p p.cur_mf).name)),
             next_fn := none }
  else
  let label_name := p.cur_token
  let p :=
    if label_name = lblLe then set_cur_mf_type p MetricType.HISTOGRAM
    else if label_name = lblQuantile then set_cur_mf_type p MetricType.SUMMARY
    else p
  let cur_lp : LabelPair := ⟨label_name, []⟩
  let p :=
    if label_name = nameLabel then
      { p with error := some (PErr.parse reserved_label_msg) }
    else p
  let p := modifyMetric p (fun m => { m with label := m.label ++ [cur_lp] })
  if p.panicked then p
  else
  let p := skip_blank_tab_if_current_blank_tab p
  if p.cur_byte != '=' then
    { p with error := some (PErr.parse (expect_eq_msg p.cur_byte)), next_fn := none }
  else { p with next_fn := some PState.startLabelValue }

/-- The dispatch at the end of fn start_label_value, source lines 937 to 964. -/
def slv_dispatch (p : TP) : TP :=
  let p := skip_blank_tab p
  if got_error p then { p with next_fn := none }
  else if p.cur_byte == ',' then { p with next_fn := some PState.startLabelName }
  else if p.cur_byte == rbrace then
    let p := skip_blank_tab p
    if got_error p then { p with next_fn := none }
    else { p with next_fn := some PState.readingValue }
  else { p with next_fn := none, error := some (PErr.parse unexpected_end_lv_msg) }

/-- fn start_label_value, source lines 821 to 964. -/
def start_label_value (p : TP) : TP :=
  let p := skip_blank_tab p
  if got_error p then { p with next_fn := none }
  else if p.cur_byte != '"' then
    { p with error := some (PErr.parse (expect_quote_msg p.cur_byte)), next_fn := none }
  else
  let p := read_token_as_label_value p
  if got_error p then { p with next_fn := none }
  else
  match p.cur_metric with
  | none => { p with panicked := true, next_fn := none }
  | some m =>
    match m.label.getLast? with
    | none => slv_dispatch p
    | some lp =>
      let lp2 : LabelPair := ⟨lp.name, p.cur_token⟩
      let m2 := { m with label := m.label.dropLast ++ [lp2] }
      let p := { p with cur_metric := some m2,
                        cur_labels := insertAssocS p.cur_labels lp2.name lp2.value }
      match (getF p p.cur_mf).field_type with
      | MetricType.SUMMARY =>
        if lp2.name = lblQuantile then
          match parse_float p.cur_token with
          | none =>
            { p with error := some (PErr.parse (expect_float_quantile_msg lp2.value)),
                     next_fn := none }
          | some v => slv_dispatch { p with cur_quantile := v }
        else slv_dispatch p
      | MetricType.HISTOGRAM =>
        if lp2.name = lblLe then
          match parse_float p.cur_token with
          | none =>
            { p with error := some (PErr.parse (expect_float_le_msg lp2.value)),
                     next_fn := none }
          | some v => slv_dispatch { p with cur_bucket := v }
        else slv_dispatch p
      | _ => slv_dispatch p

/-- fn reading_value, source lines 501 to 686. UNTYPED hits todo!, a panic;
the is_none branches of the HISTOGRAM and SUMMARY arms unwrap None, a panic.
The bucket and quantile guards use the IEEE comparison against NaN. -/
def reading_value (p : TP) : TP :=
  let p := read_token_until_white_space p
  if got_error p then { p with next_fn := none }
  else
  match parse_float p.cur_token with
  | none => { p with error := some (PErr.float float_err_msg), next_fn := none }
  | some float_val =>
    let mftype := (getF p p.cur_mf).field_type
    let p :=
      match mftype with
      | MetricType.COUNTER =>
        pushCurMetric (modifyMetric p (fun m => { m with counter := some float_val }))
      | MetricType.GAUGE =>
        pushCurMetric (modifyMetric p (fun m => { m with gauge := some float_val }))
      | MetricType.HISTOGRAM =>
        if p.cur_metric.isNone then { p with panicked := true, next_fn := none }
        else
          let p :=
            match p.parser_status with
            | some ParserStatus.OnHistogramCount =>
              modifyMetric p (fun m => mutHistogram m
                (fun h => { h with sample_count := f64_as_u64 float_val }))
            | some ParserStatus.OnHistogramSum =>
              modifyMetric p (fun m => mutHistogram m
                (fun h => { h with sample_sum := float_val }))
            | _ =>
              if fne p.cur_bucket F64.nan then
                modifyMetric p (fun m => mutHistogram m
                  (fun h => { h with bucket := h.bucket ++ [⟨p.cur_bucket, f64_as_u64 float_val⟩] }))
              else p
          pushCurMetric p
      | MetricType.SUMMARY =>
        if p.cur_metric.isNone then { p with panicked := true, next_fn := none }
        else
          let p :=
            match p.parser_status with
            | some ParserStatus.OnSummaryCount =>
              modifyMetric p (fun m => mutSummary m
                (fun s => { s with sample_count := f64_as_u64 float_val }))
            | some ParserStatus.OnSummarySum =>
              modifyMetric p (fun m => mutSummary m
                (fun s => { s with sample_sum := float_val }))
            | _ =>
              if fne p.cur_quantile F64.nan then
                modifyMetric p (fun m => mutSummary m
                  (fun s => { s with quantile := s.quantile ++ [⟨p.cur_quantile, float_val⟩] }))
              else p
          pushCurMetric p
      | MetricType.UNTYPED => { p with panicked := true, next_fn := none }
    if p.panicked then p
    else if p.cur_byte == '\n' then { p with next_fn := some PState.startOfLine }
    else { p with next_fn := some PState.startTimestamp }

/-- fn start_timestamp is todo! on entry: a panic. -/
def start_timestamp (p : TP) : TP := { p with panicked := true, next_fn := none }

def step : PState → TP → TP
  | PState.startOfLine => start_of_line
  | PState.startComment => start_comment
  | PState.readingHelp => reading_help
  | PState.readingType => reading_type
  | PState.readingMetricName => reading_metric_name
  | PState.readingLabels => reading_labels
  | PState.readingValue => reading_value
  | PState.startTimestamp => start_timestamp
  | PState.startLabelName => start_label_name
  | PState.startLabelValue => start_label_value

/-- One iteration of the driver loop in fn text_to_metric_families: the loop
only dispatches on next_fn; it never consults self.error to decide whether
to keep running. A panic stops everything. -/
def stepOnce (p : TP) : TP :=
  if p.panicked then p
  else
    match p.next_fn with
    | none => p
    | some s => step s p

def stepN : Nat → TP → TP
  | 0, p => p
  | n + 1, p => stepN n (stepOnce p)

/-- The driver loop of fn text_to_metric_families: dispatch while next_fn is
set, stop on a panic or when next_fn is None (the loop then breaks whether
or not self.error is set). -/
def drive : Nat → TP → TP
  | 0, p => p
  | n + 1, p =>
    if p.panicked then p
    else
      match p.next_fn with
      | none => p
      | some s => drive n (step s p)

/-- The value fn text_to_metric_families returns when it returns: always
Ok of unit; the metric families stay inside the parser struct. -/
inductive RustReturn | ok
deriving DecidableEq, Repr

/-- fn TextParser::new. -/
def TP.new (input : Str) : TP :=
  { cur_byte := Char.ofNat 0, cur_labels := [], heap := [MetricFamily.new],
    mf_by_name := [], cur_mf := 0, cur_token := [], cur_bucket := F64.num 0,
    cur_quantile := F64.num 0, parser_status := none, line_count := 0,
    reading_bytes := 0, input := input, cur_metric := none, error := none,
    next_fn := none, panicked := false }

def start_state (input : Str) : TP := { TP.new input with next_fn := some PState.startOfLine }

/-- fn text_to_metric_families, source lines 106 to 125: run the machine to
quiescence; on normal exit the function returns Ok of unit regardless of
self.error; on a panic it does not return. Fuel: every state consumes input
or halts within two dispatches, so eight steps per input byte suffice. -/
def text_to_metric_families (input : Str) : TP × Option RustReturn :=
  let f := drive (input.length * 8 + 64) (start_state input)
  (f, if f.panicked then none else some RustReturn.ok)

set_option maxRecDepth 100000

set_option maxHeartbeats 4000000

/- Concrete inputs used by the claims. Literal braces of the exposition
format are written with hex escapes. -/

def c1_input : Str := ("foo\x7b__name__=\x22bar\x22\x7d 1\n").toList
def c1_foo : Str := "foo".toList

def c2_input : Str :=
  ("# HELP http_request_total The total number of HTTP requests.\n# TYPE http_request_total counter\nhttp_request_total\x7bpath=\x22/api/v1\x22,method=\x22POST\x22\x7d 1027\nhttp_request_total\x7bpath=\x22/api/v1\x22,method=\x22GET\x22\x7d 4711\n").toList
def c2_name : Str := "http_request_total".toList
def c2_help : Str := "The total number of HTTP requests.".toList

def c3_input : Str :=
  ("# TYPE h histogram\nh_bucket\x7bapi=\x22/w\x22,le=\x220.1\x22\x7d 100\nh_bucket\x7bapi=\x22/w\x22,le=\x22+Inf\x22\x7d 850\nh_sum\x7bapi=\x22/w\x22\x7d 52.3\nh_count\x7bapi=\x22/w\x22\x7d 850\n").toList
def c3_h : Str := "h".toList
def c3_api : LabelPair := ⟨"api".toList, "/w".toList⟩

def c4_input : Str := ("# HELP x one\n# HELP x two\nx 1\n").toList
def c4_one : Str := "one".toList
def c4_two : Str := "two".toList

def c5_input : Str := ("m\x7b__name__=\x22v\x22\x7d 3\n").toList
def c5_v : Str := "v".toList

def c6_input : Str := ("!\n").toList

def c7_input : Str := ("# TYPE x foo\n").toList

def c8_input : Str := ("a:b 1\n").toList
def c8_a : Str := "a".toList
def c8_colon_b : Str := ":b".toList

def c10_hist_input : Str := ("# TYPE h histogram\nh 1\n").toList
def c10_sum_input : Str := ("# TYPE s summary\ns 2\n").toList

/-- Expected single metric of the histogram run of claim C10: one bucket
whose upper bound is NaN, appended although the sample had no le label. -/
def c10_hist_metric : Metric :=
  { Metric.new with histogram := some ({ HistogramV.new with bucket := [⟨F64.nan, 1⟩] }) }

/-- Expected single metric of the summary run of claim C10: one quantile
pair whose quantile is NaN, appended although the sample had no quantile
label. -/
def c10_sum_metric : Metric :=
  { Metric.new with summary := some ({ SummaryV.new with quantile := [⟨F64.nan, F64.num 2⟩] }) }

/-- Expected fourth metric record of the family h in the run of claim C3:
the count sample went into a fresh record instead of being merged. -/
def c3_count_histogram : HistogramV := { HistogramV.new with sample_count := 850 }

/-- Claim C1 is refuted on the code. On the input foo with a reserved
__name__ label: after four machine steps the reserved label name error is
set in self.error while next_fn still points at start-label-value, so the
machine keeps running; the next successful read_byte clears the error; the
parse runs to the end of input, text_to_metric_families returns Ok, and the
registry holds the family foo with one accepted metric. Hence an error
raised by a state is recovered locally and the caller observes accumulated
output together with no surfaced error. -/
theorem claim_C1 :
    (stepN 4 (start_state c1_input)).error = some (PErr.parse reserved_label_msg) ∧
    (stepN 4 (start_state c1_input)).next_fn = some PState.startLabelValue ∧
    (text_to_metric_families c1_input).2 = some RustReturn.ok ∧
    lookupAssoc (text_to_metric_families c1_input).1.mf_by_name c1_foo = some 1 ∧
    (getF (text_to_metric_families c1_input).1 1).metric ≠ [] := by
  refine ⟨by decide, by decide, by decide, by decide, by decide⟩

/-- Claim C2 is refuted on the code. On the four line scenario input, the
registered family http_request_total ends with empty help and zero metrics:
reading_help replaces cur_mf by a fresh unregistered family, so the help,
the TYPE assignment and both samples land on the orphan record at heap
index 2 instead of the registry entry at index 1. -/
theorem claim_C2 :
    lookupAssoc (text_to_metric_families c2_input).1.mf_by_name c2_name = some 1 ∧
    (getF (text_to_metric_families c2_input).1 1).help = [] ∧
    (getF (text_to_metric_families c2_input).1 1).metric = [] ∧
    (getF (text_to_metric_families c2_input).1 2).name = [] ∧
    (getF (text_to_metric_families c2_input).1 2).help = c2_help ∧
    (getF (text_to_metric_families c2_input).1 2).metric.length = 2 := by
  refine ⟨by decide, by decide, by decide, by decide, by decide, by decide⟩

/-- Claim C3 is refuted on the code. On the histogram scenario (family h,
two bucket lines, one sum line, one count line, all with the single label
set api=/w), the resulting family h holds four separate metric records, one
per sample line, all with the same non reserved label set; in particular
the count sample lands in a fresh fourth record instead of being merged. -/
theorem claim_C3 :
    (getF (text_to_metric_families c3_input).1 1).name = c3_h ∧
    (getF (text_to_metric_families c3_input).1 1).metric.length = 4 ∧
    ((getF (text_to_metric_families c3_input).1 1).metric.map
      (fun m => m.label.filter (fun lp => lp.name != lblLe))) =
      [[c3_api], [c3_api], [c3_api], [c3_api]] ∧
    ((getF (text_to_metric_families c3_input).1 1).metric.getD 3 Metric.new).histogram =
      some c3_count_histogram := by
  refine ⟨by decide, by decide, by decide, by decide⟩

/-- Claim C4 is refuted on the code. Two HELP lines for the same family x
produce no DuplicateHelp error: reading_help checks the freshly allocated
replacement family, whose help is always empty, so both lines are accepted;
the first help lands on orphan record 2, the second on orphan record 3, the
registered family x keeps empty help, and the only error at the end is the
end of input condition of the reader. -/
theorem claim_C4 :
    (text_to_metric_families c4_input).1.error = some PErr.ioEof ∧
    (text_to_metric_families c4_input).2 = some RustReturn.ok ∧
    (getF (text_to_metric_families c4_input).1 1).help = [] ∧
    (getF (text_to_metric_families c4_input).1 2).help = c4_one ∧
    (getF (text_to_metric_families c4_input).1 3).help = c4_two := by
  refine ⟨by decide, by decide, by decide, by decide, by decide⟩

/-- Claim C5 is refuted on the code. A sample line with a __name__ label
does not terminate the parse with a ReservedLabelName error: the error is
set but next_fn is left in place and the next successful read_byte clears
self.error, so the label pair (__name__, v) is accepted into the output
metric and the final recorded error is only the end of input condition. -/
theorem claim_C5 :
    (getF (text_to_metric_families c5_input).1 1).metric =
      [{ Metric.new with label := [⟨nameLabel, c5_v⟩], counter := some (F64.num 3) }] ∧
    (text_to_metric_families c5_input).1.error = some PErr.ioEof ∧
    (text_to_metric_families c5_input).2 = some RustReturn.ok := by
  refine ⟨by decide, by decide, by decide⟩

/-- Claim C6 is refuted on the code. The error raised on an invalid metric
name at line 1 is the bare message with no line number attached (the
ParseError type of the source holds only a message string), and the
function returns Ok regardless, so no error carrying a line number is ever
surfaced to the caller. -/
theorem claim_C6 :
    (text_to_metric_families c6_input).1.error = some (PErr.parse invalid_metric_name_msg) ∧
    (text_to_metric_families c6_input).1.line_count = 1 ∧
    invalid_metric_name_msg.all (fun c => !(c.isDigit)) = true ∧
    (text_to_metric_families c6_input).2 = some RustReturn.ok := by
  refine ⟨by decide, by decide, by decide, by decide⟩

/-- Claim C7 is refuted on the code. A TYPE line with the unknown token foo
makes reading_type hit the todo! branch: the process panics,
text_to_metric_families never returns, and the family type is left at its
default rather than being set to Untyped. -/
theorem claim_C7 :
    (text_to_metric_families c7_input).1.panicked = true ∧
    (text_to_metric_families c7_input).2 = none ∧
    (getF (text_to_metric_families c7_input).1 1).field_type = MetricType.COUNTER := by
  refine ⟨by decide, by decide, by decide⟩

/-- Claim C8 is refuted on the code in its scanner part. The two metric
name predicates do accept the colon, but the scanner loop tests
is_valid_label_name_continuation, which rejects it: parsing the sample
a:b 1 cuts the metric name at the colon, registers a family named a, and
then fails to parse the leftover :b as the float value. -/
theorem claim_C8 :
    is_valid_metric_name_start ':' = true ∧
    is_valid_metric_name_continuation ':' = true ∧
    is_valid_label_name_continuation ':' = false ∧
    (getF (text_to_metric_families c8_input).1 1).name = c8_a ∧
    (text_to_metric_families c8_input).1.cur_token = c8_colon_b ∧
    (text_to_metric_families c8_input).1.error = some (PErr.float float_err_msg) := by
  refine ⟨by decide, by decide, by decide, by decide, by decide, by decide⟩

/-- Claim C9 is confirmed: the base name function strips _count (6 chars),
else _sum (4), else _bucket (7), else leaves the name unchanged, testing
the suffixes in that order, and the summary and histogram variants are the
same function. -/
theorem claim_C9 (name : Str) :
    summary_metric_name name = histogram_metric_name name ∧
    is_count name = sfx_count.isSuffixOf name ∧
    is_sum name = sfx_sum.isSuffixOf name ∧
    is_bucket name = sfx_bucket.isSuffixOf name ∧
    summary_metric_name name =
      (if is_count name then name.take (name.length - 6)
       else if is_sum name then name.take (name.length - 4)
       else if is_bucket name then name.take (name.length - 7)
       else name) :=
  ⟨rfl, rfl, rfl, rfl, rfl⟩

/-- Claim C10 is confirmed: the IEEE guard x != NaN is true for every f64
value including NaN itself, so the Plain branch of reading_value appends
unconditionally; a histogram sample with no le label appends a bucket with
NaN upper bound, and a summary sample with no quantile label appends a
quantile pair with NaN quantile. -/
theorem claim_C10 :
    (∀ x : F64, fne x F64.nan = true) ∧
    (getF (text_to_metric_families c10_hist_input).1 1).metric = [c10_hist_metric] ∧
    (getF (text_to_metric_families c10_sum_input).1 1).metric = [c10_sum_metric] := by
  refine ⟨fun x => ?_, by decide, by decide⟩
  cases x <;> rfl

end Pmv
